import Mathlib

/-
Verification of the three token query operations in
examples/htool_security_tokens.c (htool_get_tokens_in_set,
htool_get_token_set_count, htool_get_token_set_info).

The operations compose external collaborators that are declared but not
defined in the repository sources: the CLI parameter resolvers
(htool_get_param_string, htool_get_param_u32), the file system
(fopen/fwrite), the CSPRNG (RAND_bytes), the version probe
(htool_get_security_version), and the two dispatch helpers
(htool_exec_security_v2_cmd, htool_exec_security_v2_serialized_cmd).
Following the specification, each collaborator is modelled as an input of
an environment record: the operation itself is embedded faithfully from
the C control flow, and every observable effect of a run is recorded in
an event log (successful sink opens, sink writes, dispatch invocations
with the ordered request parameter list, RNG invocations, the diagnostic
printed on failure, and a flag marking a dereference of an absent
serialized handle, which in C is a null pointer dereference).
-/

namespace LibHoth

/-- A byte string, each element a byte value. -/
abbrev Bytes := List Nat

/-- Little endian byte image of a uint32 value, as it sits in memory when
the C code passes the address of a uint32_t with size 4. -/
def u32le (n : Nat) : Bytes :=
  [n % 256, n / 256 % 256, n / 65536 % 256, n / 16777216 % 256]

/-- Compile time constants from htool_security_tokens.h (values are not in
the visible sources, so the development is parametric in them). -/
structure Consts where
  TOKEN_BYTE_SIZE : Nat
  MAX_TOKEN_RESPONSE_SIZE : Nat
deriving Repr, DecidableEq

/-- Identifies one logical output sink (one FILE* opened by an operation). -/
inductive SinkId where
  | tokenOut
  | sigOut
  | bootNonceOut
  | numIdsOut
  | infoOut
deriving Repr, DecidableEq

/-- The diagnostic printed by the operation on a failure path; mirrors the
printf and fprintf call sites in htool_security_tokens.c. Failures of the
external parameter resolvers print nothing in this file and carry no
diagnostic here. -/
inductive Diag where
  | sinkOpenError
  | entropyError
  | dispatchError
  | missingTokens
  | tokensTooBig
  | sizeNotMultiple
  | unsupportedVersion
deriving Repr, DecidableEq

/-- Modelled from the spec: the protocol version probe returns a tagged
value; the sources switch on LIBHOTH_SECURITY_V2 with a default arm for
every other version. -/
inductive Version where
  | v2
  | v3
deriving Repr, DecidableEq

/-- Modelled from the spec: a serialized response field handle as assigned
by the SerializedResponseDecoder, a pointer and length pair into the
response buffer; its size is the length of the referenced byte range. -/
structure SerParam where
  value : Bytes
deriving Repr, DecidableEq

/-- The size field of a serialized handle. -/
def SerParam.size (p : SerParam) : Nat := p.value.length

/-- Modelled from the spec: the outcome of one call of
htool_exec_security_v2_serialized_cmd. Status 0 means success; the three
response handles are listed in the position order of the response_params
array, and an unassigned handle stays none (the absent sentinel, NULL in
C). -/
structure SerResult where
  status : Int
  field0 : Option SerParam
  field1 : Option SerParam
  field2 : Option SerParam
deriving Repr, DecidableEq

/-- Modelled from the spec: the outcome of one call of
htool_exec_security_v2_cmd. Status 0 means success; the three byte blobs
are what the FixedResponseDecoder copies into the response slots, in the
position order of the response_params array. -/
structure FixResult where
  status : Int
  field0 : Bytes
  field1 : Bytes
  field2 : Bytes
deriving Repr, DecidableEq

/-- The environment of one invocation: the behavior of every external
collaborator the operation consults. -/
structure Env where
  devPresent : Bool
  paramString : String → Option String
  paramU32 : String → Option Nat
  fopenOk : String → Bool
  nonceResult : Option Bytes
  version : Version
  serResult : SerResult
  fixResult : FixResult

/-- The observable outcome of one run of an operation: the returned int,
the successful sink opens in order, the sink writes in order, the dispatch
invocations with their ordered request parameter byte lists, the number of
RNG invocations, the failure diagnostic printed (if any), and whether the
run dereferenced an absent serialized handle (undefined behavior in C; in
that case ret is fictional since the process crashes). -/
structure Outcome where
  ret : Int
  opens : List SinkId
  writes : List (SinkId × Bytes)
  dispatches : List (List Bytes)
  rngCalls : Nat
  diag : Option Diag
  ub : Bool
deriving Repr, DecidableEq

/-- Outcome of a run that aborted with no sink writes. -/
def abortOut (r : Int) (os : List SinkId) (ds : List (List Bytes))
    (rng : Nat) (d : Option Diag) : Outcome :=
  { ret := r, opens := os, writes := [], dispatches := ds, rngCalls := rng,
    diag := d, ub := false }

/-- Outcome of a failing run whose goto to the cleanup label jumps over a
later FILE* declaration with initializer: the cleanup block then reads an
uninitialized automatic pointer, which is undefined behavior in C. The
ret field records the -1 the function would return when the stray reads
happen to be benign; the ub flag marks that the program guarantees
nothing on this path. -/
def ubAbort (os : List SinkId) (rng : Nat) (d : Option Diag) : Outcome :=
  { ret := -1, opens := os, writes := [], dispatches := [], rngCalls := rng,
    diag := d, ub := true }

/-- Embedding of htool_get_tokens_in_set (htool_security_tokens.c lines
32 to 170). Stage order as in the source: device handle, token_output
parameter and fopen, signature_output parameter and fopen,
boot_nonce_output parameter and fopen, nonce generation, set_index
parameter, version switch; under V2: serialized dispatch, null check of
the tokens handle only, capacity check, token size multiple check, then
the three fwrite calls in the order tokens, boot nonce, signature. The
boot nonce and signature handles are dereferenced without a null check.
The token and signature fopen failures (gotos at lines 49 and 62) jump
over the FILE* initializers at lines 57 and 70, so the cleanup block at
lines 160 to 168 reads uninitialized pointers: those two paths are
undefined behavior, marked with ubAbort. -/
def htool_get_tokens_in_set (c : Consts) (env : Env) : Outcome :=
  if env.devPresent = false then abortOut (-1) [] [] 0 none
  else
    match env.paramString "token_output" with
    | none => abortOut (-1) [] [] 0 none
    | some token_output_file =>
      if env.fopenOk token_output_file = false then
        ubAbort [] 0 (some Diag.sinkOpenError)
      else
        match env.paramString "signature_output" with
        | none => abortOut (-1) [SinkId.tokenOut] [] 0 none
        | some signature_output_file =>
          if env.fopenOk signature_output_file = false then
            ubAbort [SinkId.tokenOut] 0 (some Diag.sinkOpenError)
          else
            match env.paramString "boot_nonce_output" with
            | none => abortOut (-1) [SinkId.tokenOut, SinkId.sigOut] [] 0 none
            | some boot_nonce_output_file =>
              if env.fopenOk boot_nonce_output_file = false then
                abortOut (-1) [SinkId.tokenOut, SinkId.sigOut] [] 0
                  (some Diag.sinkOpenError)
              else
                match env.nonceResult with
                | none =>
                  abortOut (-1)
                    [SinkId.tokenOut, SinkId.sigOut, SinkId.bootNonceOut]
                    [] 1 (some Diag.entropyError)
                | some challenge =>
                  match env.paramU32 "set_index" with
                  | none =>
                    abortOut (-1)
                      [SinkId.tokenOut, SinkId.sigOut, SinkId.bootNonceOut]
                      [] 1 none
                  | some set_idx =>
                    match env.version with
                    | Version.v3 =>
                      abortOut (-1)
                        [SinkId.tokenOut, SinkId.sigOut, SinkId.bootNonceOut]
                        [] 1 (some Diag.unsupportedVersion)
                    | Version.v2 =>
                      if env.serResult.status ≠ 0 then
                        abortOut env.serResult.status
                          [SinkId.tokenOut, SinkId.sigOut,
                           SinkId.bootNonceOut]
                          [[u32le set_idx, challenge]] 1
                          (some Diag.dispatchError)
                      else
                        match env.serResult.field0 with
                        | none =>
                          abortOut (-1)
                            [SinkId.tokenOut, SinkId.sigOut,
                             SinkId.bootNonceOut]
                            [[u32le set_idx, challenge]] 1
                            (some Diag.missingTokens)
                        | some tokens_param =>
                          if tokens_param.size > c.MAX_TOKEN_RESPONSE_SIZE then
                            abortOut (-1)
                              [SinkId.tokenOut, SinkId.sigOut,
                               SinkId.bootNonceOut]
                              [[u32le set_idx, challenge]] 1
                              (some Diag.tokensTooBig)
                          else if tokens_param.size % c.TOKEN_BYTE_SIZE ≠ 0 then
                            abortOut (-1)
                              [SinkId.tokenOut, SinkId.sigOut,
                               SinkId.bootNonceOut]
                              [[u32le set_idx, challenge]] 1
                              (some Diag.sizeNotMultiple)
                          else
                            match env.serResult.field1 with
                            | none =>
                              { ret := 0,
                                opens :=
                                  [SinkId.tokenOut, SinkId.sigOut,
                                   SinkId.bootNonceOut],
                                writes :=
                                  [(SinkId.tokenOut, tokens_param.value)],
                                dispatches := [[u32le set_idx, challenge]],
                                rngCalls := 1, diag := none, ub := true }
                            | some boot_nonce_param =>
                              match env.serResult.field2 with
                              | none =>
                                { ret := 0,
                                  opens :=
                                    [SinkId.tokenOut, SinkId.sigOut,
                                     SinkId.bootNonceOut],
                                  writes :=
                                    [(SinkId.tokenOut, tokens_param.value),
                                     (SinkId.bootNonceOut,
                                       boot_nonce_param.value)],
                                  dispatches := [[u32le set_idx, challenge]],
                                  rngCalls := 1, diag := none, ub := true }
                              | some sig_param =>
                                { ret := 0,
                                  opens :=
                                    [SinkId.tokenOut, SinkId.sigOut,
                                     SinkId.bootNonceOut],
                                  writes :=
                                    [(SinkId.tokenOut, tokens_param.value),
                                     (SinkId.bootNonceOut,
                                       boot_nonce_param.value),
                                     (SinkId.sigOut, sig_param.value)],
                                  dispatches := [[u32le set_idx, challenge]],
                                  rngCalls := 1, diag := none, ub := false }

/-- Embedding of htool_get_token_set_count (htool_security_tokens.c lines
172 to 295). Stage order: device handle, num_ids_output parameter and
fopen, boot_nonce_output parameter and fopen, signature_output parameter
and fopen, nonce generation, version switch; under V2: fixed dispatch with
request parameter list [challenge nonce], then the three fwrite calls in
the order count, boot nonce, signature. The num_ids and boot_nonce fopen
failures (gotos at lines 189 and 202) jump over the FILE* initializers at
lines 197 and 210, so the cleanup block at lines 284 to 292 reads
uninitialized pointers: those two paths are undefined behavior, marked
with ubAbort. -/
def htool_get_token_set_count (env : Env) : Outcome :=
  if env.devPresent = false then abortOut (-1) [] [] 0 none
  else
    match env.paramString "num_ids_output" with
    | none => abortOut (-1) [] [] 0 none
    | some num_ids_file =>
      if env.fopenOk num_ids_file = false then
        ubAbort [] 0 (some Diag.sinkOpenError)
      else
        match env.paramString "boot_nonce_output" with
        | none => abortOut (-1) [SinkId.numIdsOut] [] 0 none
        | some boot_nonce_file =>
          if env.fopenOk boot_nonce_file = false then
            ubAbort [SinkId.numIdsOut] 0 (some Diag.sinkOpenError)
          else
            match env.paramString "signature_output" with
            | none =>
              abortOut (-1) [SinkId.numIdsOut, SinkId.bootNonceOut] [] 0 none
            | some signature_file =>
              if env.fopenOk signature_file = false then
                abortOut (-1) [SinkId.numIdsOut, SinkId.bootNonceOut] [] 0
                  (some Diag.sinkOpenError)
              else
                match env.nonceResult with
                | none =>
                  abortOut (-1)
                    [SinkId.numIdsOut, SinkId.bootNonceOut, SinkId.sigOut]
                    [] 1 (some Diag.entropyError)
                | some challenge =>
                  match env.version with
                  | Version.v3 =>
                    abortOut (-1)
                      [SinkId.numIdsOut, SinkId.bootNonceOut, SinkId.sigOut]
                      [] 1 (some Diag.unsupportedVersion)
                  | Version.v2 =>
                    if env.fixResult.status ≠ 0 then
                      abortOut env.fixResult.status
                        [SinkId.numIdsOut, SinkId.bootNonceOut, SinkId.sigOut]
                        [[challenge]] 1 (some Diag.dispatchError)
                    else
                      { ret := 0,
                        opens :=
                          [SinkId.numIdsOut, SinkId.bootNonceOut,
                           SinkId.sigOut],
                        writes :=
                          [(SinkId.numIdsOut, env.fixResult.field0),
                           (SinkId.bootNonceOut, env.fixResult.field1),
                           (SinkId.sigOut, env.fixResult.field2)],
                        dispatches := [[challenge]], rngCalls := 1,
                        diag := none, ub := false }

/-- Embedding of htool_get_token_set_info (htool_security_tokens.c lines
297 to 396). Stage order differs from the other two operations: device
handle, set_index parameter, nonce generation, token_set_info parameter
and fopen, version switch; under V2: fixed dispatch with request
parameter list [set_index, challenge nonce], then a single fwrite of the
info record; the boot nonce and signature response slots are filled by
the decoder but never written anywhere. The set_index failure and the
entropy failure (gotos at lines 306 and 311) jump over the FILE*
initializer at line 319, so the cleanup block at line 391 reads an
uninitialized pointer: those two paths are undefined behavior, marked
with ubAbort. The token_set_info parameter failure at line 316 returns
-1 directly without running cleanup and stays defined. -/
def htool_get_token_set_info (env : Env) : Outcome :=
  if env.devPresent = false then abortOut (-1) [] [] 0 none
  else
    match env.paramU32 "set_index" with
    | none => ubAbort [] 0 none
    | some set_idx =>
      match env.nonceResult with
      | none => ubAbort [] 1 (some Diag.entropyError)
      | some challenge =>
        match env.paramString "token_set_info" with
        | none => abortOut (-1) [] [] 1 none
        | some token_set_info_file =>
          if env.fopenOk token_set_info_file = false then
            abortOut (-1) [] [] 1 (some Diag.sinkOpenError)
          else
            match env.version with
            | Version.v3 =>
              abortOut (-1) [SinkId.infoOut] [] 1
                (some Diag.unsupportedVersion)
            | Version.v2 =>
              if env.fixResult.status ≠ 0 then
                abortOut env.fixResult.status [SinkId.infoOut]
                  [[u32le set_idx, challenge]] 1 (some Diag.dispatchError)
              else
                { ret := 0,
                  opens := [SinkId.infoOut],
                  writes := [(SinkId.infoOut, env.fixResult.field0)],
                  dispatches := [[u32le set_idx, challenge]], rngCalls := 1,
                  diag := none, ub := false }

/-- A concrete constants instance used by witnesses: token size 2 bytes,
response buffer capacity 16 bytes. -/
def cTest : Consts := { TOKEN_BYTE_SIZE := 2, MAX_TOKEN_RESPONSE_SIZE := 16 }

/-- A concrete environment in which every stage succeeds: all parameters
resolve, all sinks open, the nonce is generated, the version is V2, and
both dispatch helpers succeed with all fields assigned. The serialized
tokens field holds three 2-byte tokens with the byte pattern 0..5. -/
def envOk : Env :=
  { devPresent := true,
    paramString := fun _ => some "out.bin",
    paramU32 := fun _ => some 5,
    fopenOk := fun _ => true,
    nonceResult := some [171, 171, 171, 171],
    version := Version.v2,
    serResult :=
      { status := 0,
        field0 := some { value := [0, 1, 2, 3, 4, 5] },
        field1 := some { value := [187, 187] },
        field2 := some { value := [204, 204] } },
    fixResult :=
      { status := 0, field0 := [10, 0, 0, 0], field1 := [187, 187],
        field2 := [204, 204] } }

/-- Environment for the C1 witness: the dispatch succeeds but the tokens
blob has 3 bytes, not a multiple of the 2-byte token size. -/
def envC1 : Env :=
  { envOk with serResult :=
      { envOk.serResult with field0 := some { value := [0, 1, 2] } } }

/-- C1: whenever a run of GetTokensInSet reaches the serialized dispatch,
the dispatch succeeds, and the returned tokens blob has a byte length
that is not a multiple of TOKEN_BYTE_SIZE, the operation returns failure
and writes no bytes to the token sink; when the blob also fits the
response buffer, the printed diagnostic is the size constraint violation. -/
theorem C1_tokens_not_multiple_fails (c : Consts) (env : Env)
    (f1 f2 f3 : String) (ch : Bytes) (si : Nat) (tp : SerParam)
    (hdev : env.devPresent = true)
    (hp1 : env.paramString "token_output" = some f1)
    (ho1 : env.fopenOk f1 = true)
    (hp2 : env.paramString "signature_output" = some f2)
    (ho2 : env.fopenOk f2 = true)
    (hp3 : env.paramString "boot_nonce_output" = some f3)
    (ho3 : env.fopenOk f3 = true)
    (hn : env.nonceResult = some ch)
    (hsi : env.paramU32 "set_index" = some si)
    (hv : env.version = Version.v2)
    (hs : env.serResult.status = 0)
    (hf : env.serResult.field0 = some tp)
    (hm : tp.size % c.TOKEN_BYTE_SIZE ≠ 0) :
    (htool_get_tokens_in_set c env).ret = -1 ∧
    (∀ b : Bytes,
      (SinkId.tokenOut, b) ∉ (htool_get_tokens_in_set c env).writes) ∧
    (htool_get_tokens_in_set c env).ub = false ∧
    (tp.size ≤ c.MAX_TOKEN_RESPONSE_SIZE →
      (htool_get_tokens_in_set c env).diag = some Diag.sizeNotMultiple) := by
  by_cases hbig : tp.size > c.MAX_TOKEN_RESPONSE_SIZE <;>
    simp [htool_get_tokens_in_set, hdev, hp1, ho1, hp2, ho2, hp3, ho3, hn,
          hsi, hv, hs, hf, hm, hbig, abortOut]

/-- C1 witness: at a concrete 3-byte blob with 2-byte tokens the run
fails, writes nothing to the token sink, and reports the size constraint
violation. -/
theorem C1_tokens_not_multiple_fails_witness :
    ({ value := [0, 1, 2] } : SerParam).size % cTest.TOKEN_BYTE_SIZE ≠ 0 ∧
    ((htool_get_tokens_in_set cTest envC1).ret = -1 ∧
     (∀ b : Bytes,
       (SinkId.tokenOut, b) ∉ (htool_get_tokens_in_set cTest envC1).writes) ∧
     (htool_get_tokens_in_set cTest envC1).ub = false ∧
     (({ value := [0, 1, 2] } : SerParam).size ≤
         cTest.MAX_TOKEN_RESPONSE_SIZE →
       (htool_get_tokens_in_set cTest envC1).diag =
         some Diag.sizeNotMultiple)) :=
  ⟨by decide,
   C1_tokens_not_multiple_fails cTest envC1 "out.bin" "out.bin" "out.bin"
     [171, 171, 171, 171] 5 { value := [0, 1, 2] } rfl rfl rfl rfl rfl rfl
     rfl rfl rfl rfl rfl rfl (by decide)⟩

/-- Environment for the C9 witness: the dispatch succeeds but the tokens
handle reports 17 bytes, above the 16-byte response buffer capacity (and
also not a multiple of the token size). -/
def envC9 : Env :=
  { envOk with serResult :=
      { envOk.serResult with
          field0 := some { value := List.replicate 17 9 } } }

/-- C9: whenever a run of GetTokensInSet reaches the serialized dispatch,
the dispatch succeeds, and the returned tokens handle reports a size
strictly greater than MAX_TOKEN_RESPONSE_SIZE, the operation fails and
writes no bytes to any sink, and the printed diagnostic is the capacity
error even when the size is also not a token multiple: the capacity check
fires before the token size multiple check. -/
theorem C9_tokens_too_big_fails (c : Consts) (env : Env)
    (f1 f2 f3 : String) (ch : Bytes) (si : Nat) (tp : SerParam)
    (hdev : env.devPresent = true)
    (hp1 : env.paramString "token_output" = some f1)
    (ho1 : env.fopenOk f1 = true)
    (hp2 : env.paramString "signature_output" = some f2)
    (ho2 : env.fopenOk f2 = true)
    (hp3 : env.paramString "boot_nonce_output" = some f3)
    (ho3 : env.fopenOk f3 = true)
    (hn : env.nonceResult = some ch)
    (hsi : env.paramU32 "set_index" = some si)
    (hv : env.version = Version.v2)
    (hs : env.serResult.status = 0)
    (hf : env.serResult.field0 = some tp)
    (hbig : tp.size > c.MAX_TOKEN_RESPONSE_SIZE) :
    (htool_get_tokens_in_set c env).ret = -1 ∧
    (htool_get_tokens_in_set c env).writes = [] ∧
    (htool_get_tokens_in_set c env).ub = false ∧
    (htool_get_tokens_in_set c env).diag = some Diag.tokensTooBig := by
  simp [htool_get_tokens_in_set, hdev, hp1, ho1, hp2, ho2, hp3, ho3, hn,
        hsi, hv, hs, hf, hbig, abortOut]

/-- C9 witness: at a concrete 17-byte blob against a 16-byte capacity the
run fails with the capacity diagnostic and writes nothing, although 17 is
also not a multiple of the 2-byte token size. -/
theorem C9_tokens_too_big_fails_witness :
    ({ value := List.replicate 17 9 } : SerParam).size >
      cTest.MAX_TOKEN_RESPONSE_SIZE ∧
    ({ value := List.replicate 17 9 } : SerParam).size %
      cTest.TOKEN_BYTE_SIZE ≠ 0 ∧
    ((htool_get_tokens_in_set cTest envC9).ret = -1 ∧
     (htool_get_tokens_in_set cTest envC9).writes = [] ∧
     (htool_get_tokens_in_set cTest envC9).ub = false ∧
     (htool_get_tokens_in_set cTest envC9).diag = some Diag.tokensTooBig) :=
  ⟨by decide, by decide,
   C9_tokens_too_big_fails cTest envC9 "out.bin" "out.bin" "out.bin"
     [171, 171, 171, 171] 5 { value := List.replicate 17 9 } rfl rfl rfl
     rfl rfl rfl rfl rfl rfl rfl rfl rfl (by decide)⟩

/-- C5: whenever a run of GetTokensInSet reaches the serialized dispatch,
the dispatch succeeds with all three handles assigned, and the tokens
blob fits the response buffer and is an exact multiple of the token size,
the operation returns 0 and writes the tokens blob byte-for-byte to the
token sink, the boot nonce blob to the boot nonce sink, and the signature
blob to the signature sink. -/
theorem C5_tokens_success_writes (c : Consts) (env : Env)
    (f1 f2 f3 : String) (ch : Bytes) (si : Nat) (tp bn sg : SerParam)
    (hdev : env.devPresent = true)
    (hp1 : env.paramString "token_output" = some f1)
    (ho1 : env.fopenOk f1 = true)
    (hp2 : env.paramString "signature_output" = some f2)
    (ho2 : env.fopenOk f2 = true)
    (hp3 : env.paramString "boot_nonce_output" = some f3)
    (ho3 : env.fopenOk f3 = true)
    (hn : env.nonceResult = some ch)
    (hsi : env.paramU32 "set_index" = some si)
    (hv : env.version = Version.v2)
    (hs : env.serResult.status = 0)
    (hf0 : env.serResult.field0 = some tp)
    (hf1 : env.serResult.field1 = some bn)
    (hf2 : env.serResult.field2 = some sg)
    (hfit : tp.size ≤ c.MAX_TOKEN_RESPONSE_SIZE)
    (hmul : tp.size % c.TOKEN_BYTE_SIZE = 0) :
    (htool_get_tokens_in_set c env).ret = 0 ∧
    (htool_get_tokens_in_set c env).writes =
      [(SinkId.tokenOut, tp.value), (SinkId.bootNonceOut, bn.value),
       (SinkId.sigOut, sg.value)] ∧
    (htool_get_tokens_in_set c env).ub = false := by
  have hbig : ¬ tp.size > c.MAX_TOKEN_RESPONSE_SIZE := by omega
  simp [htool_get_tokens_in_set, hdev, hp1, ho1, hp2, ho2, hp3, ho3, hn,
        hsi, hv, hs, hf0, hf1, hf2, hbig, hmul, abortOut]

/-- C5 witness: a concrete run with a 3-token blob (bytes 0..5, token
size 2) succeeds and the three sinks receive the three blobs
byte-for-byte. -/
theorem C5_tokens_success_writes_witness :
    ({ value := [0, 1, 2, 3, 4, 5] } : SerParam).size %
      cTest.TOKEN_BYTE_SIZE = 0 ∧
    ((htool_get_tokens_in_set cTest envOk).ret = 0 ∧
     (htool_get_tokens_in_set cTest envOk).writes =
       [(SinkId.tokenOut, [0, 1, 2, 3, 4, 5]),
        (SinkId.bootNonceOut, [187, 187]), (SinkId.sigOut, [204, 204])] ∧
     (htool_get_tokens_in_set cTest envOk).ub = false) :=
  ⟨by decide,
   C5_tokens_success_writes cTest envOk "out.bin" "out.bin" "out.bin"
     [171, 171, 171, 171] 5 { value := [0, 1, 2, 3, 4, 5] }
     { value := [187, 187] } { value := [204, 204] } rfl rfl rfl rfl rfl
     rfl rfl rfl rfl rfl rfl rfl rfl rfl (by decide) (by decide)⟩

/-- Environment for the C7 witness: the fixed dispatch returns the info
record with category 1, num_tokens 2, is_frozen true and zero reserved
padding, laid out as raw bytes. -/
def envC7 : Env :=
  { envOk with fixResult :=
      { envOk.fixResult with
          field0 := [1, 0, 0, 0, 2, 0, 0, 0, 1, 0, 0, 0] } }

/-- C7: whenever a run of GetTokenSetInfo reaches the fixed dispatch and
the dispatch succeeds, the operation returns 0 and the info sink receives
exactly the byte image of the token_set_info record that the decoder
produced, reserved padding bytes included. -/
theorem C7_info_success_writes (env : Env)
    (f : String) (ch : Bytes) (si : Nat)
    (hdev : env.devPresent = true)
    (hsi : env.paramU32 "set_index" = some si)
    (hn : env.nonceResult = some ch)
    (hp : env.paramString "token_set_info" = some f)
    (ho : env.fopenOk f = true)
    (hv : env.version = Version.v2)
    (hs : env.fixResult.status = 0) :
    (htool_get_token_set_info env).ret = 0 ∧
    (htool_get_token_set_info env).writes =
      [(SinkId.infoOut, env.fixResult.field0)] := by
  simp [htool_get_token_set_info, hdev, hsi, hn, hp, ho, hv, hs, abortOut]

/-- C7 witness: with set_index 5 and the concrete record bytes for
category 1, num_tokens 2, is_frozen true, reserved 0, the run succeeds
and the info sink holds exactly those bytes. -/
theorem C7_info_success_writes_witness :
    envC7.paramU32 "set_index" = some 5 ∧
    ((htool_get_token_set_info envC7).ret = 0 ∧
     (htool_get_token_set_info envC7).writes =
       [(SinkId.infoOut, [1, 0, 0, 0, 2, 0, 0, 0, 1, 0, 0, 0])]) :=
  ⟨rfl,
   C7_info_success_writes envC7 "out.bin" [171, 171, 171, 171] 5 rfl rfl
     rfl rfl rfl rfl rfl⟩

/-- Environment exhibiting the missing-field bug: the serialized dispatch
reports status 0, the tokens handle holds one well-sized token, but the
boot nonce handle (position 1) stays absent. -/
def envMissingField : Env :=
  { envOk with serResult :=
      { status := 0, field0 := some { value := [0, 1] }, field1 := none,
        field2 := some { value := [204, 204] } } }

/-- C2: at the concrete input where the serialized dispatch succeeds with
the boot nonce handle left absent, GetTokensInSet does not fail with a
missing-field error: it writes the tokens blob to the token sink and then
dereferences the absent boot nonce handle (a null pointer dereference in
the C sources, which check only the tokens handle). -/
theorem C2_absent_handle_dereferenced :
    envMissingField.serResult.status = 0 ∧
    envMissingField.serResult.field1 = none ∧
    (htool_get_tokens_in_set cTest envMissingField).ub = true ∧
    (htool_get_tokens_in_set cTest envMissingField).writes =
      [(SinkId.tokenOut, [0, 1])] := by
  decide

/-- The failure discipline of one operation run: a nonzero return writes
nothing to any sink and is either the generic -1 or the dispatcher status
propagated verbatim; a zero return has no failure diagnostic and reached
the dispatch; and at most one dispatch is ever issued. -/
def abortsCleanly (o : Outcome) (s : Int) : Prop :=
  (o.ret ≠ 0 → o.writes = [] ∧ (o.ret = -1 ∨ o.ret = s)) ∧
  (o.ret = 0 → o.diag = none ∧ o.dispatches ≠ []) ∧
  (o.dispatches = [] ∨ ∃ d, o.dispatches = [d])

/-- Environment for the C3 counterexample: the serialized dispatch fails
with the positive status 7, which the operation returns verbatim. -/
def envStatus7 : Env :=
  { envOk with serResult := { envOk.serResult with status := 7 } }

/-- Environment for the second part of the C3 counterexample: every fopen
fails, so GetTokensInSet takes the token sink open failure path whose
goto jumps over two FILE* initializers. -/
def envOpenFail : Env := { envOk with fopenOk := fun _ => false }

/-- C3 counterexample, two concrete refutations: a run whose dispatch
fails with the nonzero status 7 returns 7, which is not a negative
failure indicator; and a run whose token sink fopen fails reaches a
cleanup that reads FILE* locals whose initializers were jumped over
(undefined behavior), so that local failure has no deterministic return
value at all. -/
theorem C3_counterexample :
    (envStatus7.serResult.status ≠ 0 ∧
     (htool_get_tokens_in_set cTest envStatus7).ret = 7 ∧
     ¬ (htool_get_tokens_in_set cTest envStatus7).ret < 0) ∧
    ((htool_get_tokens_in_set cTest envOpenFail).diag =
       some Diag.sinkOpenError ∧
     (htool_get_tokens_in_set cTest envOpenFail).ub = true) := by
  decide

/-- Helper: the failure discipline of GetTokensInSet. -/
theorem tokens_abortsCleanly (c : Consts) (env : Env) :
    abortsCleanly (htool_get_tokens_in_set c env) env.serResult.status ∧
    ((htool_get_tokens_in_set c env).ret = 0 →
      env.serResult.status = 0) := by
  have h : ∀ o : Outcome, o = htool_get_tokens_in_set c env →
      abortsCleanly o env.serResult.status ∧
      (o.ret = 0 → env.serResult.status = 0) := by
    intro o ho
    unfold htool_get_tokens_in_set at ho
    repeat' split at ho
    all_goals subst ho
    all_goals simp_all [abortsCleanly, abortOut, ubAbort]
  exact h _ rfl

/-- Helper: the failure discipline of GetTokenSetCount. -/
theorem count_abortsCleanly (env : Env) :
    abortsCleanly (htool_get_token_set_count env) env.fixResult.status ∧
    ((htool_get_token_set_count env).ret = 0 →
      env.fixResult.status = 0) := by
  have h : ∀ o : Outcome, o = htool_get_token_set_count env →
      abortsCleanly o env.fixResult.status ∧
      (o.ret = 0 → env.fixResult.status = 0) := by
    intro o ho
    unfold htool_get_token_set_count at ho
    repeat' split at ho
    all_goals subst ho
    all_goals simp_all [abortsCleanly, abortOut, ubAbort]
  exact h _ rfl

/-- Helper: the failure discipline of GetTokenSetInfo. -/
theorem info_abortsCleanly (env : Env) :
    abortsCleanly (htool_get_token_set_info env) env.fixResult.status ∧
    ((htool_get_token_set_info env).ret = 0 →
      env.fixResult.status = 0) := by
  have h : ∀ o : Outcome, o = htool_get_token_set_info env →
      abortsCleanly o env.fixResult.status ∧
      (o.ret = 0 → env.fixResult.status = 0) := by
    intro o ho
    unfold htool_get_token_set_info at ho
    repeat' split at ho
    all_goals subst ho
    all_goals simp_all [abortsCleanly, abortOut, ubAbort]
  exact h _ rfl

/-- C3 amended: for every run of each operation that is free of
undefined behavior — it does not crash on an absent decoder handle and
does not take a goto-cleanup path that reads a FILE* local whose
initializer was jumped over (the token/signature sink open failures of
GetTokensInSet, the num_ids/boot nonce sink open failures of
GetTokenSetCount, and the set_index/entropy failures of
GetTokenSetInfo) — the first failure aborts with no sink writes and a
nonzero return value, which is -1 except for dispatch failures where the
dispatcher status is propagated verbatim (and may be positive); a zero
return happens only when every stage succeeded, in particular the
dispatch was issued and reported status 0; and at most one dispatch is
ever issued. -/
theorem C3_first_failure_aborts (c : Consts) (env : Env)
    (_hub1 : (htool_get_tokens_in_set c env).ub = false)
    (_hub2 : (htool_get_token_set_count env).ub = false)
    (_hub3 : (htool_get_token_set_info env).ub = false) :
    (abortsCleanly (htool_get_tokens_in_set c env) env.serResult.status ∧
     ((htool_get_tokens_in_set c env).ret = 0 →
       env.serResult.status = 0)) ∧
    (abortsCleanly (htool_get_token_set_count env) env.fixResult.status ∧
     ((htool_get_token_set_count env).ret = 0 →
       env.fixResult.status = 0)) ∧
    (abortsCleanly (htool_get_token_set_info env) env.fixResult.status ∧
     ((htool_get_token_set_info env).ret = 0 →
       env.fixResult.status = 0)) :=
  ⟨tokens_abortsCleanly c env, count_abortsCleanly env,
   info_abortsCleanly env⟩

/-- C3 witness: the amended discipline instantiated at the all-success
environment, whose three runs are all free of undefined behavior. -/
theorem C3_first_failure_aborts_witness :
    (htool_get_tokens_in_set cTest envOk).ub = false ∧
    (htool_get_token_set_count envOk).ub = false ∧
    (htool_get_token_set_info envOk).ub = false ∧
    (abortsCleanly (htool_get_tokens_in_set cTest envOk)
       envOk.serResult.status ∧
     ((htool_get_tokens_in_set cTest envOk).ret = 0 →
       envOk.serResult.status = 0)) ∧
    (abortsCleanly (htool_get_token_set_count envOk)
       envOk.fixResult.status ∧
     ((htool_get_token_set_count envOk).ret = 0 →
       envOk.fixResult.status = 0)) ∧
    (abortsCleanly (htool_get_token_set_info envOk)
       envOk.fixResult.status ∧
     ((htool_get_token_set_info envOk).ret = 0 →
       envOk.fixResult.status = 0)) :=
  ⟨by decide, by decide, by decide,
   C3_first_failure_aborts cTest envOk (by decide) (by decide) (by decide)⟩

/-- Environment for the C4 counterexample: the detected version is V3 and
every earlier stage succeeds. -/
def envV3 : Env := { envOk with version := Version.v3 }

/-- C4 counterexample: in a run whose detected version is not V2, the
operation has already opened all three output sinks and consumed entropy
before the version is consulted, so the version is not determined before
doing anything else; the claim fails at this concrete input. -/
theorem C4_counterexample :
    envV3.version = Version.v3 ∧
    (htool_get_tokens_in_set cTest envV3).opens =
      [SinkId.tokenOut, SinkId.sigOut, SinkId.bootNonceOut] ∧
    (htool_get_tokens_in_set cTest envV3).rngCalls = 1 := by
  decide

/-- C4 amended: each operation checks the protocol version only after
resolving parameters, opening its sinks and generating the nonce; still,
whenever the detected version is not V2, every operation returns -1
without issuing any dispatch and without writing any sink bytes. -/
theorem C4_unsupported_version_no_dispatch (c : Consts) (env : Env)
    (hv : env.version = Version.v3) :
    ((htool_get_tokens_in_set c env).ret = -1 ∧
     (htool_get_tokens_in_set c env).dispatches = [] ∧
     (htool_get_tokens_in_set c env).writes = []) ∧
    ((htool_get_token_set_count env).ret = -1 ∧
     (htool_get_token_set_count env).dispatches = [] ∧
     (htool_get_token_set_count env).writes = []) ∧
    ((htool_get_token_set_info env).ret = -1 ∧
     (htool_get_token_set_info env).dispatches = [] ∧
     (htool_get_token_set_info env).writes = []) := by
  refine ⟨?_, ?_, ?_⟩
  · have h : ∀ o : Outcome, o = htool_get_tokens_in_set c env →
        o.ret = -1 ∧ o.dispatches = [] ∧ o.writes = [] := by
      intro o ho
      unfold htool_get_tokens_in_set at ho
      repeat' split at ho
      all_goals subst ho
      all_goals simp_all [abortOut, ubAbort]
    exact h _ rfl
  · have h : ∀ o : Outcome, o = htool_get_token_set_count env →
        o.ret = -1 ∧ o.dispatches = [] ∧ o.writes = [] := by
      intro o ho
      unfold htool_get_token_set_count at ho
      repeat' split at ho
      all_goals subst ho
      all_goals simp_all [abortOut, ubAbort]
    exact h _ rfl
  · have h : ∀ o : Outcome, o = htool_get_token_set_info env →
        o.ret = -1 ∧ o.dispatches = [] ∧ o.writes = [] := by
      intro o ho
      unfold htool_get_token_set_info at ho
      repeat' split at ho
      all_goals subst ho
      all_goals simp_all [abortOut, ubAbort]
    exact h _ rfl

/-- C4 witness: at the concrete V3 environment all three operations
return -1 with no dispatch and no sink writes. -/
theorem C4_unsupported_version_no_dispatch_witness :
    envV3.version = Version.v3 ∧
    (((htool_get_tokens_in_set cTest envV3).ret = -1 ∧
      (htool_get_tokens_in_set cTest envV3).dispatches = [] ∧
      (htool_get_tokens_in_set cTest envV3).writes = []) ∧
     ((htool_get_token_set_count envV3).ret = -1 ∧
      (htool_get_token_set_count envV3).dispatches = [] ∧
      (htool_get_token_set_count envV3).writes = []) ∧
     ((htool_get_token_set_info envV3).ret = -1 ∧
      (htool_get_token_set_info envV3).dispatches = [] ∧
      (htool_get_token_set_info envV3).writes = [])) :=
  ⟨rfl, C4_unsupported_version_no_dispatch cTest envV3 rfl⟩

/-- Helper: any dispatch issued by GetTokensInSet carries the request
parameter list [set_index bytes, challenge nonce]. -/
theorem tokens_req_params (c : Consts) (env : Env) (si : Nat) (ch : Bytes)
    (hsi : env.paramU32 "set_index" = some si)
    (hn : env.nonceResult = some ch) :
    (htool_get_tokens_in_set c env).dispatches = [] ∨
    (htool_get_tokens_in_set c env).dispatches = [[u32le si, ch]] := by
  have h : ∀ o : Outcome, o = htool_get_tokens_in_set c env →
      o.dispatches = [] ∨ o.dispatches = [[u32le si, ch]] := by
    intro o ho
    unfold htool_get_tokens_in_set at ho
    repeat' split at ho
    all_goals subst ho
    all_goals simp_all [abortOut, ubAbort]
  exact h _ rfl

/-- Helper: any dispatch issued by GetTokenSetInfo carries the request
parameter list [set_index bytes, challenge nonce]. -/
theorem info_req_params (env : Env) (si : Nat) (ch : Bytes)
    (hsi : env.paramU32 "set_index" = some si)
    (hn : env.nonceResult = some ch) :
    (htool_get_token_set_info env).dispatches = [] ∨
    (htool_get_token_set_info env).dispatches = [[u32le si, ch]] := by
  have h : ∀ o : Outcome, o = htool_get_token_set_info env →
      o.dispatches = [] ∨ o.dispatches = [[u32le si, ch]] := by
    intro o ho
    unfold htool_get_token_set_info at ho
    repeat' split at ho
    all_goals subst ho
    all_goals simp_all [abortOut, ubAbort]
  exact h _ rfl

/-- Helper: any dispatch issued by GetTokenSetCount carries the request
parameter list [challenge nonce]. -/
theorem count_req_params (env : Env) (ch : Bytes)
    (hn : env.nonceResult = some ch) :
    (htool_get_token_set_count env).dispatches = [] ∨
    (htool_get_token_set_count env).dispatches = [[ch]] := by
  have h : ∀ o : Outcome, o = htool_get_token_set_count env →
      o.dispatches = [] ∨ o.dispatches = [[ch]] := by
    intro o ho
    unfold htool_get_token_set_count at ho
    repeat' split at ho
    all_goals subst ho
    all_goals simp_all [abortOut, ubAbort]
  exact h _ rfl

/-- Helper: on a zero return of GetTokensInSet with all three serialized
handles assigned, the sinks receive the positionally bound blobs in the
order tokens, boot nonce, signature. -/
theorem tokens_binding (c : Consts) (env : Env) :
    ∀ tp bn sg : SerParam,
      env.serResult.field0 = some tp →
      env.serResult.field1 = some bn →
      env.serResult.field2 = some sg →
      (htool_get_tokens_in_set c env).ret = 0 →
      (htool_get_tokens_in_set c env).writes =
        [(SinkId.tokenOut, tp.value), (SinkId.bootNonceOut, bn.value),
         (SinkId.sigOut, sg.value)] := by
  intro tp bn sg hf0 hf1 hf2
  have h : ∀ o : Outcome, o = htool_get_tokens_in_set c env →
      o.ret = 0 →
      o.writes =
        [(SinkId.tokenOut, tp.value), (SinkId.bootNonceOut, bn.value),
         (SinkId.sigOut, sg.value)] := by
    intro o ho
    unfold htool_get_tokens_in_set at ho
    repeat' split at ho
    all_goals subst ho
    all_goals simp_all [abortOut, ubAbort]
  exact h _ rfl

/-- C6: whenever the set_index parameter and the nonce are resolved, any
dispatch issued by GetTokensInSet or GetTokenSetInfo carries exactly the
ordered request parameter list [set_index (4 bytes), challenge nonce],
any dispatch issued by GetTokenSetCount carries exactly [challenge
nonce], and the serialized response handles of GetTokensInSet are bound
in the declared order: position 0 to the token sink, position 1 to the
boot nonce sink, position 2 to the signature sink. -/
theorem C6_request_encoding_and_binding (c : Consts) (env : Env)
    (si : Nat) (ch : Bytes)
    (hsi : env.paramU32 "set_index" = some si)
    (hn : env.nonceResult = some ch) :
    (u32le si).length = 4 ∧
    ((htool_get_tokens_in_set c env).dispatches = [] ∨
     (htool_get_tokens_in_set c env).dispatches = [[u32le si, ch]]) ∧
    ((htool_get_token_set_info env).dispatches = [] ∨
     (htool_get_token_set_info env).dispatches = [[u32le si, ch]]) ∧
    ((htool_get_token_set_count env).dispatches = [] ∨
     (htool_get_token_set_count env).dispatches = [[ch]]) ∧
    (∀ tp bn sg : SerParam,
      env.serResult.field0 = some tp →
      env.serResult.field1 = some bn →
      env.serResult.field2 = some sg →
      (htool_get_tokens_in_set c env).ret = 0 →
      (htool_get_tokens_in_set c env).writes =
        [(SinkId.tokenOut, tp.value), (SinkId.bootNonceOut, bn.value),
         (SinkId.sigOut, sg.value)]) :=
  ⟨rfl, tokens_req_params c env si ch hsi hn,
   info_req_params env si ch hsi hn, count_req_params env ch hn,
   tokens_binding c env⟩

/-- C6 witness: at the all-success environment the issued request
parameter lists and the three positional sink bindings are the concrete
expected ones. -/
theorem C6_request_encoding_and_binding_witness :
    envOk.paramU32 "set_index" = some 5 ∧
    envOk.nonceResult = some [171, 171, 171, 171] ∧
    (htool_get_tokens_in_set cTest envOk).dispatches =
      [[u32le 5, [171, 171, 171, 171]]] ∧
    (htool_get_token_set_count envOk).dispatches =
      [[[171, 171, 171, 171]]] ∧
    (htool_get_tokens_in_set cTest envOk).writes =
      [(SinkId.tokenOut, [0, 1, 2, 3, 4, 5]),
       (SinkId.bootNonceOut, [187, 187]), (SinkId.sigOut, [204, 204])] := by
  have h :=
    C6_request_encoding_and_binding cTest envOk 5 [171, 171, 171, 171]
      rfl rfl
  refine ⟨rfl, rfl, ?_, ?_, ?_⟩
  · rcases h.2.1 with hd | hd
    · exact absurd hd (by decide)
    · exact hd
  · rcases h.2.2.2.1 with hd | hd
    · exact absurd hd (by decide)
    · exact hd
  · exact
      h.2.2.2.2 { value := [0, 1, 2, 3, 4, 5] } { value := [187, 187] }
        { value := [204, 204] } rfl rfl rfl (by decide)

/-- Environment for the C8 failing input: the randomness source fails
while everything else succeeds. -/
def envEntropy : Env := { envOk with nonceResult := none }

/-- C8: at the concrete input where nonce generation fails,
GetTokensInSet and GetTokenSetCount fail cleanly as the claim describes
(-1, no dispatch, no sink writes, the randomness source consulted
exactly once), but GetTokenSetInfo consults the source once, issues no
dispatch, and then jumps to cleanup over the FILE* initializer at line
319: the cleanup at line 391 reads the uninitialized pointer, so on that
operation the entropy failure is undefined behavior instead of the
immediate clean failure the claim (and the spec) require. -/
theorem C8_entropy_failure_ub_info :
    envEntropy.nonceResult = none ∧
    ((htool_get_tokens_in_set cTest envEntropy).ret = -1 ∧
     (htool_get_tokens_in_set cTest envEntropy).dispatches = [] ∧
     (htool_get_tokens_in_set cTest envEntropy).writes = [] ∧
     (htool_get_tokens_in_set cTest envEntropy).rngCalls = 1 ∧
     (htool_get_tokens_in_set cTest envEntropy).ub = false) ∧
    ((htool_get_token_set_count envEntropy).ret = -1 ∧
     (htool_get_token_set_count envEntropy).dispatches = [] ∧
     (htool_get_token_set_count envEntropy).writes = [] ∧
     (htool_get_token_set_count envEntropy).rngCalls = 1 ∧
     (htool_get_token_set_count envEntropy).ub = false) ∧
    ((htool_get_token_set_info envEntropy).dispatches = [] ∧
     (htool_get_token_set_info envEntropy).writes = [] ∧
     (htool_get_token_set_info envEntropy).rngCalls = 1 ∧
     (htool_get_token_set_info envEntropy).ub = true) := by
  decide

/-- Helper: on a zero return of GetTokenSetInfo the only sink ever opened
is the info sink and the only write is the info record bytes. -/
theorem info_success_shape (env : Env) :
    (htool_get_token_set_info env).ret = 0 →
    (htool_get_token_set_info env).writes =
      [(SinkId.infoOut, env.fixResult.field0)] ∧
    (htool_get_token_set_info env).opens = [SinkId.infoOut] := by
  have h : ∀ o : Outcome, o = htool_get_token_set_info env →
      o.ret = 0 →
      o.writes = [(SinkId.infoOut, env.fixResult.field0)] ∧
      o.opens = [SinkId.infoOut] := by
    intro o ho
    unfold htool_get_token_set_info at ho
    repeat' split at ho
    all_goals subst ho
    all_goals simp_all [abortOut, ubAbort]
  exact h _ rfl

/-- Helper: on a zero return of GetTokenSetCount all three decoded fields
are written, each to its own sink. -/
theorem count_success_shape (env : Env) :
    (htool_get_token_set_count env).ret = 0 →
    (htool_get_token_set_count env).writes =
      [(SinkId.numIdsOut, env.fixResult.field0),
       (SinkId.bootNonceOut, env.fixResult.field1),
       (SinkId.sigOut, env.fixResult.field2)] := by
  have h : ∀ o : Outcome, o = htool_get_token_set_count env →
      o.ret = 0 →
      o.writes =
        [(SinkId.numIdsOut, env.fixResult.field0),
         (SinkId.bootNonceOut, env.fixResult.field1),
         (SinkId.sigOut, env.fixResult.field2)] := by
    intro o ho
    unfold htool_get_token_set_count at ho
    repeat' split at ho
    all_goals subst ho
    all_goals simp_all [abortOut, ubAbort]
  exact h _ rfl

/-- C10: GetTokenSetInfo never depends on the decoded boot nonce and
signature fields (its whole outcome is unchanged when they are replaced),
and on success it writes only the info sink, with exactly the info record
bytes; by contrast GetTokenSetCount on success writes all three of its
decoded fields, each to its own sink. -/
theorem C10_info_discards_nonce_and_signature (env : Env) (bn sg : Bytes) :
    htool_get_token_set_info
      { env with fixResult :=
          { env.fixResult with field1 := bn, field2 := sg } } =
      htool_get_token_set_info env ∧
    ((htool_get_token_set_info env).ret = 0 →
      (htool_get_token_set_info env).writes =
        [(SinkId.infoOut, env.fixResult.field0)] ∧
      (htool_get_token_set_info env).opens = [SinkId.infoOut]) ∧
    ((htool_get_token_set_count env).ret = 0 →
      (htool_get_token_set_count env).writes =
        [(SinkId.numIdsOut, env.fixResult.field0),
         (SinkId.bootNonceOut, env.fixResult.field1),
         (SinkId.sigOut, env.fixResult.field2)]) := by
  refine ⟨?_, info_success_shape env, count_success_shape env⟩
  unfold htool_get_token_set_info
  rfl

/-- C10 witness: at the all-success environment with concrete replacement
blobs, the info outcome is unchanged and the two success write lists are
the concrete expected ones. -/
theorem C10_info_discards_nonce_and_signature_witness :
    (htool_get_token_set_info
       { envOk with fixResult :=
           { envOk.fixResult with field1 := [1], field2 := [2] } } =
       htool_get_token_set_info envOk) ∧
    (htool_get_token_set_info envOk).writes =
      [(SinkId.infoOut, [10, 0, 0, 0])] ∧
    (htool_get_token_set_count envOk).writes =
      [(SinkId.numIdsOut, [10, 0, 0, 0]), (SinkId.bootNonceOut, [187, 187]),
       (SinkId.sigOut, [204, 204])] := by
  have h := C10_info_discards_nonce_and_signature envOk [1] [2]
  exact ⟨h.1, (h.2.1 (by decide)).1, h.2.2 (by decide)⟩

end LibHoth
